import Mathlib

/-!
Shallow embedding of the three MultiversX example contracts
(`src/contracts/examples/adder`, `counter`, `empty`).

Each contract owns its persistent storage, modelled as a map from storage
key names to raw unsigned-integer values (`BigUint` is an arbitrary-precision
unsigned integer, embedded as `Nat`; `u64` values are `Nat` values below
`2 ^ 64`).  Every endpoint or lifecycle hook is a function from a store to an
execution result: the store after the call, a success flag, and the trace of
storage operations the call performed.  The framework pieces that the source
uses but does not contain (`SingleValueMapper`, arithmetic failure, revert on
failure) are modelled from the spec and marked as such.
-/

/-- Persistent storage of one contract: storage key names to raw values. -/
def Store : Type := String → Nat

/-- Overwrite one storage slot. -/
def Store.set (st : Store) (key : String) (v : Nat) : Store :=
  fun k => if k = key then v else st k

/-- A single persistent-storage operation performed during a call. -/
inductive StorageOp : Type where
  | read : String → StorageOp
  | write : String → Nat → StorageOp
deriving DecidableEq

/-- Result of executing a lifecycle hook, endpoint or view: the storage after
the call, whether the call succeeded, and the storage operations it made. -/
structure ExecResult : Type where
  store : Store
  success : Bool
  trace : List StorageOp

/-- Modelled from the spec: the framework `SingleValueMapper` is "a
framework-provided accessor binding a named persistent storage slot to a typed
value"; its `set` writes that slot. -/
def svmSet (key : String) (v : Nat) (st : Store) : ExecResult :=
  ⟨st.set key v, true, [StorageOp.write key v]⟩

/-- Modelled from the spec: `SingleValueMapper.update` reads the slot, applies
the mutation and writes the result back; a framework-level arithmetic
overflow/underflow inside the mutation (the only error condition, "not visible
in source") fails the call, and a failed call leaves persistent storage
unchanged. -/
def svmUpdate (key : String) (f : Nat → Option Nat) (st : Store) : ExecResult :=
  match f (st key) with
  | some v => ⟨st.set key v, true, [StorageOp.read key, StorageOp.write key v]⟩
  | none => ⟨st, false, [StorageOp.read key]⟩

/-- Modelled from the spec: a view endpoint only reads its slot and returns
the stored value. -/
def svmGet (key : String) (st : Store) : Nat × List StorageOp :=
  (st key, [StorageOp.read key])

/-- The number of 64-bit unsigned integer values. -/
def U64_MOD : Nat := 2 ^ 64

/-- Modelled from the spec: framework-level checked `u64` addition, which
fails on overflow. -/
def u64CheckedAdd (a b : Nat) : Option Nat :=
  if a + b < U64_MOD then some (a + b) else none

/-- Modelled from the spec: framework-level checked `u64` subtraction, which
fails on underflow. -/
def u64CheckedSub (a b : Nat) : Option Nat :=
  if b ≤ a then some (a - b) else none

namespace Adder

/-- Storage key of the single declared slot of `Adder`. -/
def sumKey : String := "sum"

/-- Source: `fn init(&self, initial_value: BigUint) \x7b self.sum().set(initial_value); \x7d` -/
def init (st : Store) (initial_value : Nat) : ExecResult :=
  svmSet sumKey initial_value st

/-- Source: `fn upgrade(&self) \x7b\x7d` -/
def upgrade (st : Store) : ExecResult :=
  ⟨st, true, []⟩

/-- Source: `fn add(&self, value: BigUint) \x7b self.sum().update(|sum| *sum += value); \x7d`
`BigUint` addition is exact arbitrary-precision addition: it never fails. -/
def add (st : Store) (value : Nat) : ExecResult :=
  svmUpdate sumKey (fun sum => some (sum + value)) st

/-- Source: the `getSum` view attached to the `sum` storage mapper. -/
def getSum (st : Store) : Nat × List StorageOp :=
  svmGet sumKey st

/-- The storage slots declared by `Adder` (its `storage_mapper` attributes). -/
def storageKeys : List String :=
  [sumKey]

/-- The externally callable endpoints of `Adder`. -/
inductive Endpoint : Type where
  | add : Endpoint
  | getSum : Endpoint
deriving DecidableEq

/-- Dispatch an `Adder` endpoint call; the numeric argument is the `value`
argument of `add` and is ignored by the view. -/
def call : Endpoint → Nat → Store → ExecResult
  | Endpoint.add, v, st => add st v
  | Endpoint.getSum, _, st => ⟨st, true, (svmGet sumKey st).2⟩

end Adder

namespace Counter

/-- Storage key of the single declared slot of `Counter`. -/
def counterKey : String := "counter"

/-- Source: `fn init(&self) \x7b self.counter().set(0); \x7d` -/
def init (st : Store) : ExecResult :=
  svmSet counterKey 0 st

/-- Source: `fn upgrade(&self) \x7b\x7d` -/
def upgrade (st : Store) : ExecResult :=
  ⟨st, true, []⟩

/-- Source: `fn increment(&self) \x7b self.counter().update(|c| *c += 1); \x7d`
The stored value is a `u64`, so the addition is checked 64-bit addition. -/
def increment (st : Store) : ExecResult :=
  svmUpdate counterKey (fun c => u64CheckedAdd c 1) st

/-- Source: `fn decrement(&self) \x7b self.counter().update(|c| *c -= 1); \x7d`
The stored value is a `u64`, so the subtraction is checked 64-bit subtraction. -/
def decrement (st : Store) : ExecResult :=
  svmUpdate counterKey (fun c => u64CheckedSub c 1) st

/-- Source: the `get` view attached to the `counter` storage mapper. -/
def get (st : Store) : Nat × List StorageOp :=
  svmGet counterKey st

/-- The storage slots declared by `Counter` (its `storage_mapper` attributes). -/
def storageKeys : List String :=
  [counterKey]

/-- The externally callable endpoints of `Counter`; none takes an argument. -/
inductive Endpoint : Type where
  | increment : Endpoint
  | decrement : Endpoint
  | get : Endpoint
deriving DecidableEq

/-- Dispatch a `Counter` endpoint call. -/
def call : Endpoint → Store → ExecResult
  | Endpoint.increment, st => increment st
  | Endpoint.decrement, st => decrement st
  | Endpoint.get, st => ⟨st, true, (svmGet counterKey st).2⟩

end Counter

namespace Empty

/-- Source: `fn init(&self) \x7b\x7d` -/
def init (st : Store) : ExecResult :=
  ⟨st, true, []⟩

/-- Source: `fn upgrade(&self) \x7b\x7d` -/
def upgrade (st : Store) : ExecResult :=
  ⟨st, true, []⟩

/-- The storage slots declared by `Empty`: it declares none. -/
def storageKeys : List String :=
  []

end Empty

/-- A concrete store with every slot holding 0, for concrete evaluations. -/
def zeroStore : Store := fun _ => 0

/-- A concrete store with every slot holding 5, for concrete evaluations. -/
def fiveStore : Store := fun _ => 5

/-- C1: for the Adder contract, calling `init(3)` and then `add(5)` leaves the
stored sum equal to 8, and the `getSum` view then returns 8. -/
theorem c1_adder_init3_add5_sum_eq_8 (st : Store) :
    ((Adder.add (Adder.init st 3).store 5).store) Adder.sumKey = 8 ∧
    (Adder.getSum (Adder.add (Adder.init st 3).store 5).store).1 = 8 := by
  constructor <;>
    simp [Adder.init, Adder.add, Adder.getSum, svmSet, svmUpdate, svmGet, Store.set]

/-- C2: for every stored sum and every argument value, `Adder.add` terminates
successfully with the stored sum exactly the old sum plus the argument, in
exact arbitrary-precision unsigned-integer arithmetic. -/
theorem c2_adder_add_exact (st : Store) (v : Nat) :
    (Adder.add st v).success = true ∧
    (Adder.add st v).store Adder.sumKey = st Adder.sumKey + v := by
  constructor <;> simp [Adder.add, svmUpdate, Store.set]

/-- C3 counterexample: `Adder.init` is not a no-op on storage: from the store
holding 0 in every slot, `init(1)` changes the `sum` slot. -/
theorem c3_cex_adder_init_writes :
    ((Adder.init zeroStore 1).store) Adder.sumKey ≠ zeroStore Adder.sumKey := by
  decide

/-- C3 amended: the upgrade hooks of all three contracts and the init hook of
`Empty` are no-ops on storage and perform no storage operation; the init hooks
of `Adder` and `Counter` are not no-ops: `Adder.init v` writes `v` to the sum
slot and `Counter.init` writes 0 to the counter slot, touching no other slot. -/
theorem c3_amended_hooks (st : Store) (v : Nat) :
    (Adder.upgrade st).store = st ∧ (Adder.upgrade st).trace = [] ∧
    (Counter.upgrade st).store = st ∧ (Counter.upgrade st).trace = [] ∧
    (Empty.upgrade st).store = st ∧ (Empty.upgrade st).trace = [] ∧
    (Empty.init st).store = st ∧ (Empty.init st).trace = [] ∧
    (Adder.init st v).store = st.set Adder.sumKey v ∧
    (Counter.init st).store = st.set Counter.counterKey 0 := by
  refine ⟨rfl, rfl, rfl, rfl, rfl, rfl, rfl, rfl, rfl, rfl⟩

/-- C4 counterexample: `Counter.decrement` from the store whose counter slot
holds 0 performs no write at all (its trace is a lone read), so it does not
perform exactly one read-modify-write of the counter slot. -/
theorem c4_cex_decrement_no_write :
    (Counter.decrement zeroStore).trace = [StorageOp.read Counter.counterKey] ∧
    ¬ ∃ v, (Counter.decrement zeroStore).trace =
      [StorageOp.read Counter.counterKey, StorageOp.write Counter.counterKey v] := by
  constructor
  · decide
  · rintro ⟨v, h⟩
    simp [Counter.decrement, svmUpdate, u64CheckedSub, zeroStore, Counter.counterKey] at h

/-- C4 amended: each mutating endpoint touches only its contract's single
stored scalar. `Adder.add` always performs exactly one read followed by one
write of the updated sum; `Counter.increment` and `Counter.decrement` perform
the read and, exactly when the checked arithmetic succeeds, one write of the
updated counter (on the failing boundary states the call stops after the
read); no endpoint changes any other storage slot. -/
theorem c4_amended_endpoint_frame (st : Store) (v : Nat) (k : String)
    (hA : k ≠ Adder.sumKey) (hC : k ≠ Counter.counterKey) :
    (Adder.add st v).success = true ∧
    (Adder.add st v).trace =
      [StorageOp.read Adder.sumKey, StorageOp.write Adder.sumKey (st Adder.sumKey + v)] ∧
    (Adder.add st v).store Adder.sumKey = st Adder.sumKey + v ∧
    (Adder.add st v).store k = st k ∧
    (Counter.increment st).trace =
      (if st Counter.counterKey + 1 < U64_MOD
        then [StorageOp.read Counter.counterKey,
              StorageOp.write Counter.counterKey (st Counter.counterKey + 1)]
        else [StorageOp.read Counter.counterKey]) ∧
    (Counter.increment st).store k = st k ∧
    (Counter.decrement st).trace =
      (if 1 ≤ st Counter.counterKey
        then [StorageOp.read Counter.counterKey,
              StorageOp.write Counter.counterKey (st Counter.counterKey - 1)]
        else [StorageOp.read Counter.counterKey]) ∧
    (Counter.decrement st).store k = st k := by
  refine ⟨rfl, rfl, by simp [Adder.add, svmUpdate, Store.set], ?_, ?_, ?_, ?_, ?_⟩
  · simp [Adder.add, svmUpdate, Store.set, hA]
  · by_cases h : st Counter.counterKey + 1 < U64_MOD <;>
      simp [Counter.increment, svmUpdate, u64CheckedAdd, h]
  · by_cases h : st Counter.counterKey + 1 < U64_MOD <;>
      simp [Counter.increment, svmUpdate, u64CheckedAdd, h, Store.set, hC]
  · by_cases h : 1 ≤ st Counter.counterKey <;>
      simp [Counter.decrement, svmUpdate, u64CheckedSub, h]
  · by_cases h : 1 ≤ st Counter.counterKey <;>
      simp [Counter.decrement, svmUpdate, u64CheckedSub, h, Store.set, hC]

/-- C4 amended witness: the amended frame statement evaluated at the all-zero
store, argument 5 and the unrelated slot name `"x"`. -/
theorem c4_amended_endpoint_frame_witness :
    (Adder.add zeroStore 5).success = true ∧
    (Adder.add zeroStore 5).trace =
      [StorageOp.read Adder.sumKey,
       StorageOp.write Adder.sumKey (zeroStore Adder.sumKey + 5)] ∧
    (Adder.add zeroStore 5).store Adder.sumKey = zeroStore Adder.sumKey + 5 ∧
    (Adder.add zeroStore 5).store "x" = zeroStore "x" ∧
    (Counter.increment zeroStore).trace =
      (if zeroStore Counter.counterKey + 1 < U64_MOD
        then [StorageOp.read Counter.counterKey,
              StorageOp.write Counter.counterKey (zeroStore Counter.counterKey + 1)]
        else [StorageOp.read Counter.counterKey]) ∧
    (Counter.increment zeroStore).store "x" = zeroStore "x" ∧
    (Counter.decrement zeroStore).trace =
      (if 1 ≤ zeroStore Counter.counterKey
        then [StorageOp.read Counter.counterKey,
              StorageOp.write Counter.counterKey (zeroStore Counter.counterKey - 1)]
        else [StorageOp.read Counter.counterKey]) ∧
    (Counter.decrement zeroStore).store "x" = zeroStore "x" :=
  c4_amended_endpoint_frame zeroStore 5 "x" (by decide) (by decide)

/-- A concrete store with every slot holding the largest `u64` value. -/
def maxStore : Store := fun _ => U64_MOD - 1

/-- C5: the only error condition of any endpoint is arithmetic
overflow/underflow: `Adder.add` never fails; `Counter.decrement` fails exactly
when the stored counter is 0; `Counter.increment` fails exactly when the
stored counter is the largest `u64` value; and a failing endpoint leaves
storage unchanged. -/
theorem c5_endpoint_failure_conditions (st : Store) (v : Nat)
    (h : st Counter.counterKey < U64_MOD) :
    (Adder.add st v).success = true ∧
    ((Counter.decrement st).success = false ↔ st Counter.counterKey = 0) ∧
    ((Counter.increment st).success = false ↔ st Counter.counterKey = U64_MOD - 1) ∧
    ((Counter.decrement st).success = false → (Counter.decrement st).store = st) ∧
    ((Counter.increment st).success = false → (Counter.increment st).store = st) := by
  refine ⟨rfl, ?_, ?_, ?_, ?_⟩
  · by_cases hc : 1 ≤ st Counter.counterKey <;>
      simp [Counter.decrement, svmUpdate, u64CheckedSub, hc] <;> omega
  · by_cases hc : st Counter.counterKey + 1 < U64_MOD <;>
      simp [Counter.increment, svmUpdate, u64CheckedAdd, hc] <;> omega
  · by_cases hc : 1 ≤ st Counter.counterKey <;>
      simp [Counter.decrement, svmUpdate, u64CheckedSub, hc]
  · by_cases hc : st Counter.counterKey + 1 < U64_MOD <;>
      simp [Counter.increment, svmUpdate, u64CheckedAdd, hc]

/-- C5 witness: the failure conditions evaluated at the store holding the
largest `u64` value in every slot, with argument 5. -/
theorem c5_endpoint_failure_conditions_witness :
    maxStore Counter.counterKey < U64_MOD ∧
    ((Adder.add maxStore 5).success = true ∧
     ((Counter.decrement maxStore).success = false ↔ maxStore Counter.counterKey = 0) ∧
     ((Counter.increment maxStore).success = false ↔
       maxStore Counter.counterKey = U64_MOD - 1) ∧
     ((Counter.decrement maxStore).success = false →
       (Counter.decrement maxStore).store = maxStore) ∧
     ((Counter.increment maxStore).success = false →
       (Counter.increment maxStore).store = maxStore)) :=
  ⟨by norm_num [maxStore, U64_MOD],
   c5_endpoint_failure_conditions maxStore 5 (by norm_num [maxStore, U64_MOD])⟩

/-- C6 counterexample: the Empty contract declares no storage slot, so its
declared state does not have exactly one storage slot. -/
theorem c6_cex_empty_has_no_slot : Empty.storageKeys.length ≠ 1 := by
  decide

/-- C6 amended: Adder and Counter each hold exactly one persisted scalar value
addressed by a fixed storage key name (`sum` and `counter` respectively), while
Empty declares no storage slot at all. -/
theorem c6_amended_declared_slots :
    Adder.storageKeys = ["sum"] ∧ Adder.storageKeys.length = 1 ∧
    Counter.storageKeys = ["counter"] ∧ Counter.storageKeys.length = 1 ∧
    Empty.storageKeys = [] := by
  refine ⟨rfl, rfl, rfl, rfl, rfl⟩

/-- C7 counterexample: Counter is not a single-function storage mutator: its
two distinct endpoints `increment` and `decrement` both change the stored
counter from the store holding 5 everywhere. -/
theorem c7_cex_counter_two_mutating_endpoints :
    Counter.Endpoint.increment ≠ Counter.Endpoint.decrement ∧
    (Counter.call Counter.Endpoint.increment fiveStore).store Counter.counterKey ≠
      fiveStore Counter.counterKey ∧
    (Counter.call Counter.Endpoint.decrement fiveStore).store Counter.counterKey ≠
      fiveStore Counter.counterKey := by
  refine ⟨by decide, by decide, by decide⟩

/-- C7 amended: Adder has exactly one endpoint that can change its stored
value, namely `add` (its view `getSum` never changes storage); Counter has
exactly two, `increment` and `decrement` (its view `get` never changes
storage); Empty has no endpoint. -/
theorem c7_amended_mutating_endpoints (st : Store) (v : Nat) :
    (Adder.call Adder.Endpoint.getSum v st).store = st ∧
    (Counter.call Counter.Endpoint.get st).store = st ∧
    (Adder.call Adder.Endpoint.add 1 zeroStore).store Adder.sumKey ≠
      zeroStore Adder.sumKey ∧
    (Counter.call Counter.Endpoint.increment fiveStore).store Counter.counterKey ≠
      fiveStore Counter.counterKey ∧
    (Counter.call Counter.Endpoint.decrement fiveStore).store Counter.counterKey ≠
      fiveStore Counter.counterKey :=
  ⟨rfl, rfl, by decide, by decide, by decide⟩

/-- C8: `Counter.init` takes no argument and sets the stored counter to 0, so
a `decrement` called immediately after `init` is the underflow case: it fails
and leaves storage unchanged. -/
theorem c8_counter_init_zero_underflow (st : Store) :
    ((Counter.init st).store) Counter.counterKey = 0 ∧
    (Counter.decrement (Counter.init st).store).success = false ∧
    (Counter.decrement (Counter.init st).store).store = (Counter.init st).store := by
  have h0 : ((Counter.init st).store) Counter.counterKey = 0 := by
    simp [Counter.init, svmSet, Store.set]
  refine ⟨h0, ?_, ?_⟩ <;>
    simp [Counter.decrement, svmUpdate, u64CheckedSub, h0]

/-- C9: within `u64` bounds, `Counter.increment` and `Counter.decrement` are
mutual inverses: for a stored counter below the largest `u64` value, increment
then decrement restores it; for a positive stored counter, decrement then
increment restores it. -/
theorem c9_increment_decrement_inverse (st : Store)
    (h : st Counter.counterKey < U64_MOD) :
    (st Counter.counterKey < U64_MOD - 1 →
      ((Counter.decrement (Counter.increment st).store).store) Counter.counterKey =
        st Counter.counterKey) ∧
    (0 < st Counter.counterKey →
      ((Counter.increment (Counter.decrement st).store).store) Counter.counterKey =
        st Counter.counterKey) := by
  constructor
  · intro h1
    have hinc : st Counter.counterKey + 1 < U64_MOD := by omega
    simp [Counter.increment, Counter.decrement, svmUpdate, u64CheckedAdd,
      u64CheckedSub, hinc, Store.set]
  · intro h2
    have hdec : 1 ≤ st Counter.counterKey := h2
    have hinc : st Counter.counterKey - 1 + 1 < U64_MOD := by omega
    simp [Counter.increment, Counter.decrement, svmUpdate, u64CheckedAdd,
      u64CheckedSub, hdec, hinc, h, Store.set]

/-- C9 witness: the inverse laws evaluated at the store holding 5 everywhere. -/
theorem c9_increment_decrement_inverse_witness :
    fiveStore Counter.counterKey < U64_MOD ∧
    ((Counter.decrement (Counter.increment fiveStore).store).store) Counter.counterKey =
      fiveStore Counter.counterKey ∧
    ((Counter.increment (Counter.decrement fiveStore).store).store) Counter.counterKey =
      fiveStore Counter.counterKey :=
  ⟨by norm_num [fiveStore, U64_MOD],
   (c9_increment_decrement_inverse fiveStore (by norm_num [fiveStore, U64_MOD])).1
     (by norm_num [fiveStore, U64_MOD]),
   (c9_increment_decrement_inverse fiveStore (by norm_num [fiveStore, U64_MOD])).2
     (by norm_num [fiveStore])⟩

/-- C10: `Adder.add` is commutative and has identity 0: adding `a` then `b`
yields the same storage as adding `b` then `a`, and adding 0 leaves the
storage unchanged. -/
theorem c10_add_comm_and_identity (st : Store) (a b : Nat) :
    (Adder.add (Adder.add st a).store b).store =
      (Adder.add (Adder.add st b).store a).store ∧
    (Adder.add st 0).store = st := by
  constructor
  · funext k
    by_cases h : k = Adder.sumKey <;>
      simp [Adder.add, svmUpdate, Store.set, h]
    omega
  · funext k
    by_cases h : k = Adder.sumKey <;>
      simp [Adder.add, svmUpdate, Store.set, h]
